import Mathlib

/-
Verification development for the microservices-fastapi repository.

The gateway (src/gateway/main.py) and the course data service
(src/course-service/data_service.py, models.py) are shallowly embedded:
pure Lean functions mirror the Python functions, network I/O is made
explicit as a transport-outcome parameter, and raised HTTPExceptions
become explicit error results.  Timestamps inserted into error envelopes
(datetime.utcnow().isoformat()) are side-effect values unrelated to any
property below and are omitted from the envelope model.
-/

namespace Gateway

/-- Outcome of the single outbound httpx call made by forward_request.
The ok constructor carries the backend status code and the parsed JSON
body (none when response.text is empty, matching
`response.json() if response.text else None`); the other three
constructors are the httpx exception classes caught in the source:
httpx.ConnectError, httpx.TimeoutException and any other
httpx.RequestError (with its string description). -/
inductive Transport where
  | ok (status_code : Nat) (body : Option String)
  | connectError
  | timeout
  | requestError (msg : String)
deriving DecidableEq, Repr

/-- The detail dict of the HTTPExceptions raised by forward_request in
src/gateway/main.py.  Fields that only some of the envelopes carry are
Options defaulting to none; the timestamp field is omitted (see header
comment). -/
structure ErrorDetail where
  error : String
  message : String
  available_services : Option (List String) := none
  path : Option String := none
  details : Option (Option String) := none
  service_url : Option String := none
deriving DecidableEq, Repr

/-- Result of forward_request: either the JSONResponse passing the
backend status and body through, or a raised HTTPException with status
code and detail envelope. -/
inductive FwdResult where
  | response (status_code : Nat) (content : Option String)
  | httpError (status_code : Nat) (detail : ErrorDetail)
deriving DecidableEq, Repr

/-- The static service registry SERVICES of src/gateway/main.py. -/
def SERVICES : List (String × String) :=
  [("student", "http://localhost:8001"), ("course", "http://localhost:8002")]

/-- Embedding of forward_request (src/gateway/main.py lines 161-266).
The outbound call is abstracted by the transport parameter, which is
consulted only on the branch where the source actually issues a
client.get/post/put/delete call. -/
def forward_request (service path method : String) (transport : Transport) :
    FwdResult :=
  match SERVICES.lookup service with
  | none =>
      .httpError 404
        { error := "SERVICE_NOT_FOUND"
          message := "Service \x27" ++ service ++ "\x27 does not exist"
          available_services := some (SERVICES.map (fun p => p.1)) }
  | some base =>
      if method = "GET" ∨ method = "POST" ∨ method = "PUT" ∨ method = "DELETE" then
        match transport with
        | .ok status_code body =>
            if status_code = 404 then
              .httpError 404
                { error := "RESOURCE_NOT_FOUND"
                  message := "The requested resource was not found in " ++
                    service ++ " service"
                  path := some path }
            else if status_code = 422 then
              .httpError 422
                { error := "VALIDATION_ERROR"
                  message := "Request data failed validation"
                  details := some body }
            else if 500 ≤ status_code then
              .httpError 502
                { error := "SERVICE_ERROR"
                  message := "The " ++ service ++
                    " service encountered an internal error" }
            else
              .response status_code body
        | .connectError =>
            .httpError 503
              { error := "SERVICE_UNAVAILABLE"
                message := "Cannot connect to " ++ service ++
                  " service. Make sure it is running."
                service_url := some base }
        | .timeout =>
            .httpError 504
              { error := "GATEWAY_TIMEOUT"
                message := "The " ++ service ++
                  " service took too long to respond" }
        | .requestError msg =>
            .httpError 503
              { error := "REQUEST_FAILED"
                message := "Failed to reach " ++ service ++ " service: " ++ msg }
      else
        .httpError 405
          { error := "METHOD_NOT_ALLOWED"
            message := "HTTP method \x27" ++ method ++ "\x27 is not supported" }

/-- The JWT signing secret SECRET_KEY of src/gateway/main.py. -/
def SECRET_KEY : String := "your-secret-key-change-in-production"

/-- ACCESS_TOKEN_EXPIRE_MINUTES of src/gateway/main.py. -/
def ACCESS_TOKEN_EXPIRE_MINUTES : Int := 30

/-- The data dict passed to create_access_token; at its only call site
(login) it is a dict with just the key sub.  sub is optional because
verify_token checks for its absence. -/
structure TokenData where
  sub : Option String
deriving DecidableEq, Repr

/-- Decoded JWT claim set: the sub claim and the exp claim (a Unix
timestamp in seconds). -/
structure JwtPayload where
  sub : Option String
  exp : Option Int
deriving DecidableEq, Repr

/-- A signed token: payload together with the key it was signed with.
Signature validity is modelled as key equality at decode time. -/
structure Jwt where
  payload : JwtPayload
  key : String
deriving DecidableEq, Repr

/-- Result of jwt.decode: either the payload, or the exception class
raised (jwt.ExpiredSignatureError / jwt.InvalidTokenError). -/
inductive JwtDecodeResult where
  | ok (payload : JwtPayload)
  | expiredSignature
  | invalidToken
deriving DecidableEq, Repr

/-- Modelled from the spec: the PyJWT library (jwt.encode / jwt.decode)
is not part of this repository.  Per its documented behaviour and the
spec sentence "Fails with TokenExpired when current time ≥ expiry",
decode rejects a wrong signature as invalid and raises
ExpiredSignatureError when exp ≤ now. -/
def jwt_decode (token : Jwt) (key : String) (now : Int) : JwtDecodeResult :=
  if token.key ≠ key then .invalidToken
  else
    match token.payload.exp with
    | some e => if e ≤ now then .expiredSignature else .ok token.payload
    | none => .ok token.payload

/-- Embedding of create_access_token (src/gateway/main.py lines 117-122).
datetime.utcnow() is the explicit now parameter (seconds); the expiry
claim is now + 30 minutes. -/
def create_access_token (data : TokenData) (now : Int) : Jwt :=
  { payload :=
      { sub := data.sub
        exp := some (now + ACCESS_TOKEN_EXPIRE_MINUTES * 60) }
    key := SECRET_KEY }

/-- Result of verify_token: the authenticated username, or a raised
HTTPException carrying status code, error code and message. -/
inductive VerifyResult where
  | ok (username : String)
  | httpError (status_code : Nat) (error : String) (message : String)
deriving DecidableEq, Repr

/-- Embedding of verify_token (src/gateway/main.py lines 124-156).  The
credentials argument carries the bearer token; now is the verification
time passed to jwt_decode. -/
def verify_token (credentials : Jwt) (now : Int) : VerifyResult :=
  match jwt_decode credentials SECRET_KEY now with
  | .ok payload =>
      match payload.sub with
      | none => .httpError 401 "INVALID_TOKEN" "Token payload is invalid"
      | some username => .ok username
  | .expiredSignature =>
      .httpError 401 "TOKEN_EXPIRED" "Token has expired. Please login again."
  | .invalidToken =>
      .httpError 401 "INVALID_TOKEN" "Could not validate token"

/-- A JSON value as it appears in a forwarded request body (the dicts
produced by pydantic .dict(exclude_unset=True) have string, int or null
values for this app). -/
inductive JValue where
  | jnull
  | jstr (s : String)
  | jint (n : Int)
deriving DecidableEq, Repr

/-- An optional string field value as JSON (null when the client sent
an explicit null). -/
def jsonOfOptStr : Option String → JValue
  | none => .jnull
  | some s => .jstr s

/-- An optional int field value as JSON. -/
def jsonOfOptInt : Option Int → JValue
  | none => .jnull
  | some n => .jint n

/-- StudentUpdate (src/gateway/main.py lines 63-67).  Every pydantic
field is Optional with default None; the outer Option records whether
the client explicitly set the field (pydantic tracks this for
exclude_unset), the inner one is the sent value, none for an explicit
JSON null. -/
structure StudentUpdate where
  name : Option (Option String) := none
  age : Option (Option Int) := none
  email : Option (Option String) := none
  course : Option (Option String) := none
deriving DecidableEq, Repr

/-- student.dict(exclude_unset=True): the JSON object containing exactly
the explicitly-set fields, in field declaration order. -/
def StudentUpdate.dict_exclude_unset (s : StudentUpdate) :
    List (String × JValue) :=
  (match s.name with | none => [] | some v => [("name", jsonOfOptStr v)]) ++
  (match s.age with | none => [] | some v => [("age", jsonOfOptInt v)]) ++
  (match s.email with | none => [] | some v => [("email", jsonOfOptStr v)]) ++
  (match s.course with | none => [] | some v => [("course", jsonOfOptStr v)])

/-- CourseUpdate (src/gateway/main.py lines 76-81), with the same
set-tracking encoding as StudentUpdate. -/
structure CourseUpdate where
  title : Option (Option String) := none
  description : Option (Option String) := none
  duration_weeks : Option (Option Int) := none
  instructor : Option (Option String) := none
  max_students : Option (Option Int) := none
deriving DecidableEq, Repr

/-- course.dict(exclude_unset=True) for the gateway CourseUpdate model. -/
def CourseUpdate.dict_exclude_unset (c : CourseUpdate) :
    List (String × JValue) :=
  (match c.title with | none => [] | some v => [("title", jsonOfOptStr v)]) ++
  (match c.description with
    | none => [] | some v => [("description", jsonOfOptStr v)]) ++
  (match c.duration_weeks with
    | none => [] | some v => [("duration_weeks", jsonOfOptInt v)]) ++
  (match c.instructor with
    | none => [] | some v => [("instructor", jsonOfOptStr v)]) ++
  (match c.max_students with
    | none => [] | some v => [("max_students", jsonOfOptInt v)])

/-- The arguments a route handler passes to forward_request: service,
path, method and the JSON body (the json= keyword argument). -/
structure ForwardDescriptor where
  service : String
  path : String
  method : String
  json : List (String × JValue)
deriving DecidableEq, Repr

/-- Embedding of the update_student route handler (src/gateway/main.py
lines 332-335): the forwarding call it makes. -/
def update_student (student_id : Int) (student : StudentUpdate) :
    ForwardDescriptor :=
  { service := "student"
    path := "/api/students/" ++ toString student_id
    method := "PUT"
    json := student.dict_exclude_unset }

/-- Embedding of the update_course route handler (src/gateway/main.py
lines 360-363): the forwarding call it makes. -/
def update_course (course_id : Int) (course : CourseUpdate) :
    ForwardDescriptor :=
  { service := "course"
    path := "/api/courses/" ++ toString course_id
    method := "PUT"
    json := course.dict_exclude_unset }

/-- A middleware-level response: status code and mutable header map
(association list, first entry wins on lookup). -/
structure MwResponse where
  status_code : Nat
  headers : List (String × String)
deriving DecidableEq, Repr

/-- Starlette header assignment response.headers[k] = v: replaces an
existing entry for the key, otherwise appends. -/
def set_header (headers : List (String × String)) (k v : String) :
    List (String × String) :=
  if headers.any (fun p => p.1 == k) then
    headers.map (fun p => if p.1 == k then (k, v) else p)
  else headers ++ [(k, v)]

/-- Embedding of the log_requests middleware (src/gateway/main.py lines
90-112).  The awaited call_next(request) is abstracted as its outcome:
a response or a raised exception (its description string); process_time
is the elapsed-milliseconds value the source computes from time.time().
Log emission is a pure side effect and is not modelled; the returned
value captures the header mutation and the bare re-raise. -/
def log_requests (outcome : Except String MwResponse) (process_time : ℚ) :
    Except String MwResponse :=
  match outcome with
  | .ok response =>
      .ok { response with
              headers := set_header response.headers "X-Process-Time"
                (toString process_time ++ "ms") }
  | .error e => .error e

/-- Lookup after the replacing branch of set_header finds the new
value, provided the key was present. -/
theorem lookup_replace_of_any (l : List (String × String)) (k v : String)
    (h : l.any (fun p => p.1 == k) = true) :
    (l.map (fun p => if p.1 == k then (k, v) else p)).lookup k = some v := by
  induction l with
  | nil => simp at h
  | cons p t ih =>
      obtain ⟨pk, pv⟩ := p
      simp only [List.map_cons]
      by_cases hp : pk = k
      · rw [if_pos (beq_iff_eq.mpr hp)]
        exact List.lookup_cons_self
      · have hb : (pk == k) = false := beq_eq_false_iff_ne.mpr hp
        have hb2 : (k == pk) = false := beq_eq_false_iff_ne.mpr (Ne.symm hp)
        have ht : t.any (fun p => p.1 == k) = true := by
          rw [List.any_cons] at h
          simp only [hb, Bool.false_or] at h
          exact h
        rw [if_neg (by simp [hb]), List.lookup_cons, hb2]
        exact ih ht

/-- Lookup after the appending branch of set_header finds the new
value, provided the key was absent. -/
theorem lookup_append_of_not_any (l : List (String × String)) (k v : String)
    (h : l.any (fun p => p.1 == k) = false) :
    (l ++ [(k, v)]).lookup k = some v := by
  induction l with
  | nil => exact List.lookup_cons_self
  | cons p t ih =>
      obtain ⟨pk, pv⟩ := p
      rw [List.any_cons, Bool.or_eq_false_iff] at h
      have hb2 : (k == pk) = false :=
        beq_eq_false_iff_ne.mpr (Ne.symm (beq_eq_false_iff_ne.mp h.1))
      rw [List.cons_append, List.lookup_cons, hb2]
      exact ih h.2

/-- Lookup always finds the value just written by set_header. -/
theorem lookup_set_header (headers : List (String × String)) (k v : String) :
    (set_header headers k v).lookup k = some v := by
  unfold set_header
  by_cases h : headers.any (fun p => p.1 == k) = true
  · simp only [h, if_true]
    exact lookup_replace_of_any headers k v h
  · have hf : headers.any (fun p => p.1 == k) = false :=
      Bool.not_eq_true _ ▸ eq_false_of_ne_true h
    simp only [hf, Bool.false_eq_true, if_false]
    exact lookup_append_of_not_any headers k v hf

/-- Claim C8: the middleware attaches an X-Process-Time header carrying
the elapsed milliseconds to every successful response, leaving the
status code alone, and re-raises an unhandled exception unchanged
rather than swallowing it. -/
theorem log_requests_timing_and_reraise (r : MwResponse) (e : String)
    (process_time : ℚ) :
    (∃ r2, log_requests (.ok r) process_time = .ok r2 ∧
      r2.status_code = r.status_code ∧
      r2.headers.lookup "X-Process-Time" =
        some (toString process_time ++ "ms")) ∧
    log_requests (.error e) process_time = .error e :=
  ⟨⟨_, rfl, rfl, lookup_set_header _ _ _⟩, rfl⟩

end Gateway

namespace CourseService

/-- Course (src/course-service/models.py lines 5-11). -/
structure Course where
  id : Int
  title : String
  description : String
  duration_weeks : Int
  instructor : String
  max_students : Int
deriving DecidableEq, Repr

/-- CourseCreate (src/course-service/models.py lines 13-18). -/
structure CourseCreate where
  title : String
  description : String
  duration_weeks : Int
  instructor : String
  max_students : Int
deriving DecidableEq, Repr

/-- CourseUpdate (src/course-service/models.py lines 20-25): every field
Optional with default None.  A field is applied by the setattr loop of
update_course exactly when it is some; an explicitly-null set field is
identified with an unset one here (neither can touch the id field, which
CourseUpdate does not have). -/
structure CourseUpdate where
  title : Option String := none
  description : Option String := none
  duration_weeks : Option Int := none
  instructor : Option String := none
  max_students : Option Int := none
deriving DecidableEq, Repr

/-- The state of CourseMockDataService
(src/course-service/data_service.py lines 4-39): the courses list and
the next_id counter. -/
structure CourseMockDataService where
  courses : List Course
  next_id : Int
deriving DecidableEq, Repr

/-- The state built by CourseMockDataService.__init__ (lines 5-11). -/
def CourseMockDataService.init : CourseMockDataService :=
  { courses :=
      [ { id := 1, title := "Python Programming"
          description := "Learn Python from scratch"
          duration_weeks := 8, instructor := "Dr. Smith", max_students := 30 }
      , { id := 2, title := "Web Development"
          description := "HTML, CSS, JavaScript basics"
          duration_weeks := 10, instructor := "Dr. Johnson", max_students := 25 }
      , { id := 3, title := "Data Science"
          description := "Data analysis and machine learning"
          duration_weeks := 12, instructor := "Dr. Williams", max_students := 20 } ]
    next_id := 4 }

/-- get_course_by_id (lines 16-17): the first course whose id matches,
else None. -/
def get_course_by_id (s : CourseMockDataService) (course_id : Int) :
    Option Course :=
  s.courses.find? (fun c => c.id == course_id)

/-- add_course (lines 19-23): appends a course built from next_id and
the CourseCreate fields, then increments next_id; also returns the new
course. -/
def add_course (s : CourseMockDataService) (course_data : CourseCreate) :
    CourseMockDataService × Course :=
  let new_course : Course :=
    { id := s.next_id
      title := course_data.title
      description := course_data.description
      duration_weeks := course_data.duration_weeks
      instructor := course_data.instructor
      max_students := course_data.max_students }
  ({ courses := s.courses ++ [new_course], next_id := s.next_id + 1 },
    new_course)

/-- The setattr loop of update_course (lines 28-30): each set field of
the CourseUpdate overwrites the corresponding attribute; id is not a
CourseUpdate field and is untouched. -/
def apply_update (course : Course) (course_data : CourseUpdate) : Course :=
  { course with
      title := course_data.title.getD course.title
      description := course_data.description.getD course.description
      duration_weeks := course_data.duration_weeks.getD course.duration_weeks
      instructor := course_data.instructor.getD course.instructor
      max_students := course_data.max_students.getD course.max_students }

/-- In-place mutation of the found course inside the list: the first
course with the matching id (the one get_course_by_id returns) is
replaced by its updated version, the rest is untouched. -/
def update_first (l : List Course) (course_id : Int)
    (course_data : CourseUpdate) : List Course :=
  match l with
  | [] => []
  | c :: rest =>
      if c.id == course_id then apply_update c course_data :: rest
      else c :: update_first rest course_id course_data

/-- update_course (lines 25-32): looks the course up by id; if found,
mutates it in place via setattr for every set field and returns it,
otherwise returns None and leaves the state unchanged. -/
def update_course (s : CourseMockDataService) (course_id : Int)
    (course_data : CourseUpdate) : CourseMockDataService × Option Course :=
  match get_course_by_id s course_id with
  | some course =>
      ({ s with courses := update_first s.courses course_id course_data },
        some (apply_update course course_data))
  | none => (s, none)

/-- delete_course (lines 34-39): looks the course up by id; if found,
list.remove deletes the first list element equal to it (pydantic models
compare structurally) and True is returned, otherwise False and the
state is unchanged. -/
def delete_course (s : CourseMockDataService) (course_id : Int) :
    Bool × CourseMockDataService :=
  match get_course_by_id s course_id with
  | some course => (true, { s with courses := s.courses.erase course })
  | none => (false, s)

/-- One mutating operation on the data service, for stating the
reachable-state invariant. -/
inductive Op where
  | add (course_data : CourseCreate)
  | update (course_id : Int) (course_data : CourseUpdate)
  | del (course_id : Int)
deriving Repr

/-- Apply one operation, keeping only the state. -/
def applyOp (s : CourseMockDataService) : Op → CourseMockDataService
  | .add course_data => (add_course s course_data).1
  | .update course_id course_data => (update_course s course_id course_data).1
  | .del course_id => (delete_course s course_id).2

/-- Run a sequence of operations from a state. -/
def runOps (s : CourseMockDataService) (ops : List Op) :
    CourseMockDataService :=
  ops.foldl applyOp s

/-- The data-service invariant: course ids are pairwise distinct and
strictly below next_id. -/
def Inv (s : CourseMockDataService) : Prop :=
  (s.courses.map (fun c => c.id)).Nodup ∧
  ∀ c ∈ s.courses, c.id < s.next_id

end CourseService

namespace CourseService

/-- Decomposition of find?-then-erase on the course list: when find?
locates a course, erasing it splits the list around exactly that
occurrence and leaves everything else unchanged. -/
theorem find_erase_decomp (l : List Course) (cid : Int) (c : Course)
    (h : l.find? (fun x => x.id == cid) = some c) :
    ∃ l1 l2, l = l1 ++ c :: l2 ∧ l.erase c = l1 ++ l2 := by
  induction l with
  | nil => simp at h
  | cons a t ih =>
      rw [List.find?_cons] at h
      by_cases ha : (a.id == cid) = true
      · rw [ha] at h
        have hac : a = c := Option.some_inj.mp h
        subst hac
        exact ⟨[], t, rfl, List.erase_cons_head a t⟩
      · have hf : (a.id == cid) = false := by
          cases hx : (a.id == cid)
          · rfl
          · exact absurd hx ha
        rw [hf] at h
        have ht : t.find? (fun x => x.id == cid) = some c := h
        obtain ⟨l1, l2, hl, he⟩ := ih ht
        have hpc0 := List.find?_some ht
        have hpc : (c.id == cid) = true := hpc0
        have hac : ¬ (a == c) = true := by
          intro hEq
          have hEq2 : a = c := beq_iff_eq.mp hEq
          rw [hEq2, hpc] at hf
          exact Bool.noConfusion hf
        refine ⟨a :: l1, l2, by rw [List.cons_append, hl], ?_⟩
        rw [List.erase_cons_tail hac, he, List.cons_append]

/-- Claim C9: when a course with the requested id is present,
delete_course returns True, keeps next_id, and the resulting collection
is the original split around exactly that course with the surrounding
courses unchanged; when no such course exists it returns False and the
whole state is unchanged. -/
theorem delete_course_removes_exactly (s : CourseMockDataService)
    (cid : Int) :
    ((∃ c ∈ s.courses, c.id = cid) →
      (delete_course s cid).1 = true ∧
      (delete_course s cid).2.next_id = s.next_id ∧
      ∃ c l1 l2, c.id = cid ∧ s.courses = l1 ++ c :: l2 ∧
        (delete_course s cid).2.courses = l1 ++ l2) ∧
    ((¬ ∃ c ∈ s.courses, c.id = cid) →
      delete_course s cid = (false, s)) := by
  rcases hfind : s.courses.find? (fun x => x.id == cid) with _ | c
  · have hnone : ∀ x ∈ s.courses, ¬ x.id = cid := by
      intro x hx
      have h0 := List.find?_eq_none.mp hfind x hx
      simpa using h0
    constructor
    · rintro ⟨c, hc, hid⟩
      exact absurd hid (hnone c hc)
    · intro _
      simp [delete_course, get_course_by_id, hfind]
  · have hid0 := List.find?_some hfind
    have hid : c.id = cid := by simpa using hid0
    have hmem : c ∈ s.courses := List.mem_of_find?_eq_some hfind
    have hdel : delete_course s cid =
        (true, { s with courses := s.courses.erase c }) := by
      simp [delete_course, get_course_by_id, hfind]
    obtain ⟨l1, l2, hl, he⟩ := find_erase_decomp s.courses cid c hfind
    constructor
    · intro _
      rw [hdel]
      exact ⟨rfl, rfl, c, l1, l2, hid, hl, he⟩
    · intro hno
      exact absurd ⟨c, hmem, hid⟩ hno

/-- Witness for C9: deleting course 2 from the initial state succeeds,
deleting a missing id 99 returns False and leaves the state intact. -/
theorem delete_course_removes_exactly_witness :
    (delete_course CourseMockDataService.init 2).1 = true ∧
    delete_course CourseMockDataService.init 99 =
      (false, CourseMockDataService.init) :=
  ⟨((delete_course_removes_exactly CourseMockDataService.init 2).1
      (by decide)).1,
   (delete_course_removes_exactly CourseMockDataService.init 99).2
      (by decide)⟩

/-- apply_update never touches the id field (CourseUpdate has no id). -/
theorem apply_update_id (course : Course) (course_data : CourseUpdate) :
    (apply_update course course_data).id = course.id := rfl

/-- The in-place update leaves the list of course ids unchanged. -/
theorem update_first_map_id (l : List Course) (cid : Int)
    (u : CourseUpdate) :
    (update_first l cid u).map (fun c => c.id) = l.map (fun c => c.id) := by
  induction l with
  | nil => rfl
  | cons c t ih =>
      unfold update_first
      by_cases h : (c.id == cid) = true
      · rw [if_pos h]
        simp [apply_update_id]
      · rw [if_neg h]
        simp [ih]

/-- Projections of add_course: the new course is appended, next_id is
bumped, and the new course gets id next_id. -/
theorem add_course_state (s : CourseMockDataService) (d : CourseCreate) :
    (add_course s d).1.courses = s.courses ++ [(add_course s d).2] ∧
    (add_course s d).1.next_id = s.next_id + 1 ∧
    (add_course s d).2.id = s.next_id :=
  ⟨rfl, rfl, rfl⟩

/-- update_course preserves the id list and next_id. -/
theorem update_course_state (s : CourseMockDataService) (cid : Int)
    (u : CourseUpdate) :
    (update_course s cid u).1.courses.map (fun c => c.id) =
      s.courses.map (fun c => c.id) ∧
    (update_course s cid u).1.next_id = s.next_id := by
  unfold update_course
  rcases hfind : get_course_by_id s cid with _ | c
  · exact ⟨rfl, rfl⟩
  · exact ⟨update_first_map_id s.courses cid u, rfl⟩

/-- Each operation preserves the id invariant. -/
theorem applyOp_inv (s : CourseMockDataService) (op : Op) (h : Inv s) :
    Inv (applyOp s op) := by
  obtain ⟨hnd, hlt⟩ := h
  cases op with
  | add d =>
      obtain ⟨hc, hn, hi⟩ := add_course_state s d
      constructor
      · show ((add_course s d).1.courses.map (fun c => c.id)).Nodup
        rw [hc, List.map_append, List.nodup_append]
        refine ⟨hnd, by simp, ?_⟩
        intro a ha hb
        simp only [List.map_cons, List.map_nil, List.mem_singleton] at hb
        rcases List.mem_map.mp ha with ⟨x, hx, hxa⟩
        have hx2 := hlt x hx
        rw [hxa, hb, hi] at hx2
        exact absurd hx2 (lt_irrefl _)
      · intro x hx
        show x.id < (add_course s d).1.next_id
        rw [hn]
        rcases List.mem_append.mp (hc ▸ hx) with h1 | h2
        · have := hlt x h1
          omega
        · simp only [List.mem_singleton] at h2
          rw [h2, hi]
          omega
  | update cid u =>
      obtain ⟨hmap, hnext⟩ := update_course_state s cid u
      constructor
      · show ((update_course s cid u).1.courses.map (fun c => c.id)).Nodup
        rw [hmap]
        exact hnd
      · intro x hx
        show x.id < (update_course s cid u).1.next_id
        rw [hnext]
        have hxm : x.id ∈ (update_course s cid u).1.courses.map
            (fun c => c.id) := List.mem_map_of_mem _ hx
        rw [hmap] at hxm
        rcases List.mem_map.mp hxm with ⟨y, hy, hyid⟩
        rw [← hyid]
        exact hlt y hy
  | del cid =>
      rcases hfind : get_course_by_id s cid with _ | c
      · have heq : delete_course s cid = (false, s) := by
          simp [delete_course, hfind]
        show Inv (delete_course s cid).2
        rw [heq]
        exact ⟨hnd, hlt⟩
      · have hcourses : (delete_course s cid).2.courses =
            s.courses.erase c := by
          simp [delete_course, hfind]
        have hnext : (delete_course s cid).2.next_id = s.next_id := by
          simp [delete_course, hfind]
        constructor
        · show ((delete_course s cid).2.courses.map (fun c => c.id)).Nodup
          rw [hcourses]
          exact List.Nodup.sublist
            ((List.erase_sublist c s.courses).map _) hnd
        · intro x hx
          show x.id < (delete_course s cid).2.next_id
          rw [hnext]
          have hx2 : x ∈ (delete_course s cid).2.courses := hx
          rw [hcourses] at hx2
          exact hlt x (List.mem_of_mem_erase hx2)

/-- The initial state satisfies the invariant. -/
theorem init_inv : Inv CourseMockDataService.init := by
  constructor
  · decide
  · decide

/-- Running any operation sequence from an invariant state stays
invariant. -/
theorem runOps_inv (ops : List Op) (s : CourseMockDataService)
    (h : Inv s) : Inv (runOps s ops) := by
  induction ops generalizing s with
  | nil => exact h
  | cons op t ih => exact ih (applyOp s op) (applyOp_inv s op h)

/-- Claim C10: every sequence of add, update and delete operations from
the initial state keeps all course ids pairwise distinct and strictly
below next_id, and update_course never changes any course id. -/
theorem course_ids_invariant (ops : List Op) :
    Inv (runOps CourseMockDataService.init ops) ∧
    ∀ (s : CourseMockDataService) (cid : Int) (u : CourseUpdate),
      (update_course s cid u).1.courses.map (fun c => c.id) =
        s.courses.map (fun c => c.id) :=
  ⟨runOps_inv ops CourseMockDataService.init init_inv,
   fun s cid u => (update_course_state s cid u).1⟩

end CourseService

namespace Gateway

/-- Claim C1: for every configured service and every backend response
with status ≥ 500, forward_request returns a gateway error with status
502 and error code SERVICE_ERROR; the raw 5xx status and body are never
passed through to the caller. -/
theorem forward_5xx_wraps_service_error (service base path method : String)
    (status_code : Nat) (body : Option String)
    (hsvc : SERVICES.lookup service = some base)
    (hm : method = "GET" ∨ method = "POST" ∨ method = "PUT" ∨ method = "DELETE")
    (hst : 500 ≤ status_code) :
    forward_request service path method (.ok status_code body) =
      .httpError 502
        { error := "SERVICE_ERROR"
          message := "The " ++ service ++
            " service encountered an internal error" } ∧
    ∀ b, forward_request service path method (.ok status_code body) ≠
      .response status_code b := by
  have h404 : status_code ≠ 404 := by omega
  have h422 : status_code ≠ 422 := by omega
  constructor
  · simp [forward_request, hsvc, hm, h404, h422, hst]
  · intro b
    simp [forward_request, hsvc, hm, h404, h422, hst]

/-- Witness for C1: a backend 500 from the student service becomes a
502 SERVICE_ERROR. -/
theorem forward_5xx_wraps_service_error_witness :
    forward_request "student" "/api/students" "GET" (.ok 500 none) =
      .httpError 502
        { error := "SERVICE_ERROR"
          message := "The student service encountered an internal error" } ∧
    ∀ b, forward_request "student" "/api/students" "GET" (.ok 500 none) ≠
      .response 500 b :=
  forward_5xx_wraps_service_error "student" "http://localhost:8001"
    "/api/students" "GET" 500 none rfl (Or.inl rfl) (by omega)

/-- Claim C2: for every service name missing from the registry,
forward_request fails with 404 SERVICE_NOT_FOUND listing the valid
service names, for every path, method and transport outcome - the
result does not depend on the transport, so no outbound call is
consulted. -/
theorem forward_unknown_service_not_found (service path method : String)
    (transport : Transport)
    (hsvc : SERVICES.lookup service = none) :
    forward_request service path method transport =
      .httpError 404
        { error := "SERVICE_NOT_FOUND"
          message := "Service \x27" ++ service ++ "\x27 does not exist"
          available_services := some ["student", "course"] } := by
  unfold forward_request
  rw [hsvc]
  rfl

/-- Witness for C2: an unregistered service name yields 404
SERVICE_NOT_FOUND with the registry keys, whatever the transport would
have done. -/
theorem forward_unknown_service_not_found_witness :
    forward_request "payments" "/api/payments" "PATCH" .connectError =
      .httpError 404
        { error := "SERVICE_NOT_FOUND"
          message := "Service \x27payments\x27 does not exist"
          available_services := some ["student", "course"] } :=
  forward_unknown_service_not_found "payments" "/api/payments" "PATCH"
    .connectError rfl

/-- Unfolding lemma for the student update body: each field key maps to
the sent value exactly when the field was set, and no other key occurs. -/
theorem student_dict_exclude_unset_spec (s : StudentUpdate) :
    s.dict_exclude_unset.lookup "name" = s.name.map jsonOfOptStr ∧
    s.dict_exclude_unset.lookup "age" = s.age.map jsonOfOptInt ∧
    s.dict_exclude_unset.lookup "email" = s.email.map jsonOfOptStr ∧
    s.dict_exclude_unset.lookup "course" = s.course.map jsonOfOptStr ∧
    ∀ p ∈ s.dict_exclude_unset,
      p.1 = "name" ∨ p.1 = "age" ∨ p.1 = "email" ∨ p.1 = "course" := by
  obtain ⟨n, a, e, co⟩ := s
  cases n <;> cases a <;> cases e <;> cases co <;>
    simp [StudentUpdate.dict_exclude_unset, List.lookup]

/-- Unfolding lemma for the course update body, as for the student one. -/
theorem course_dict_exclude_unset_spec (c : CourseUpdate) :
    c.dict_exclude_unset.lookup "title" = c.title.map jsonOfOptStr ∧
    c.dict_exclude_unset.lookup "description" =
      c.description.map jsonOfOptStr ∧
    c.dict_exclude_unset.lookup "duration_weeks" =
      c.duration_weeks.map jsonOfOptInt ∧
    c.dict_exclude_unset.lookup "instructor" =
      c.instructor.map jsonOfOptStr ∧
    c.dict_exclude_unset.lookup "max_students" =
      c.max_students.map jsonOfOptInt ∧
    ∀ p ∈ c.dict_exclude_unset,
      p.1 = "title" ∨ p.1 = "description" ∨ p.1 = "duration_weeks" ∨
      p.1 = "instructor" ∨ p.1 = "max_students" := by
  obtain ⟨t, d, w, i, m⟩ := c
  cases t <;> cases d <;> cases w <;> cases i <;> cases m <;>
    simp [CourseUpdate.dict_exclude_unset, List.lookup]

/-- Claim C7: the JSON body forwarded by the student and course update
handlers contains exactly the explicitly-set fields of the inbound
request - looking up a field key yields the sent value when the field
was set and nothing when it was unset, and no key outside the model
fields occurs in the body. -/
theorem update_bodies_exclude_unset (student_id : Int) (s : StudentUpdate)
    (course_id : Int) (c : CourseUpdate) :
    ((update_student student_id s).json.lookup "name" =
      s.name.map jsonOfOptStr) ∧
    ((update_student student_id s).json.lookup "age" =
      s.age.map jsonOfOptInt) ∧
    ((update_student student_id s).json.lookup "email" =
      s.email.map jsonOfOptStr) ∧
    ((update_student student_id s).json.lookup "course" =
      s.course.map jsonOfOptStr) ∧
    (∀ p ∈ (update_student student_id s).json,
      p.1 = "name" ∨ p.1 = "age" ∨ p.1 = "email" ∨ p.1 = "course") ∧
    ((update_course course_id c).json.lookup "title" =
      c.title.map jsonOfOptStr) ∧
    ((update_course course_id c).json.lookup "description" =
      c.description.map jsonOfOptStr) ∧
    ((update_course course_id c).json.lookup "duration_weeks" =
      c.duration_weeks.map jsonOfOptInt) ∧
    ((update_course course_id c).json.lookup "instructor" =
      c.instructor.map jsonOfOptStr) ∧
    ((update_course course_id c).json.lookup "max_students" =
      c.max_students.map jsonOfOptInt) ∧
    (∀ p ∈ (update_course course_id c).json,
      p.1 = "title" ∨ p.1 = "description" ∨ p.1 = "duration_weeks" ∨
      p.1 = "instructor" ∨ p.1 = "max_students") := by
  obtain ⟨h1, h2, h3, h4, h5⟩ := student_dict_exclude_unset_spec s
  obtain ⟨g1, g2, g3, g4, g5, g6⟩ := course_dict_exclude_unset_spec c
  exact ⟨h1, h2, h3, h4, h5, g1, g2, g3, g4, g5, g6⟩

/-- Claim C3: for every non-empty subject, the token issued by
create_access_token is accepted by verify_token strictly before its
expiry instant, returning the same subject, and rejected with
TOKEN_EXPIRED at or after the expiry instant. -/
theorem token_verify_roundtrip (sub : String) (t0 t : Int)
    (hsub : sub ≠ "") :
    (t < t0 + ACCESS_TOKEN_EXPIRE_MINUTES * 60 →
      verify_token (create_access_token { sub := some sub } t0) t =
        VerifyResult.ok sub) ∧
    (t0 + ACCESS_TOKEN_EXPIRE_MINUTES * 60 ≤ t →
      verify_token (create_access_token { sub := some sub } t0) t =
        VerifyResult.httpError 401 "TOKEN_EXPIRED"
          "Token has expired. Please login again.") := by
  constructor
  · intro h
    have hnot : ¬ (t0 + ACCESS_TOKEN_EXPIRE_MINUTES * 60 ≤ t) := by omega
    simp [verify_token, create_access_token, jwt_decode, hnot]
  · intro h
    simp [verify_token, create_access_token, jwt_decode, h]

/-- Witness for C3: a token for admin issued at time 0 verifies at
time 1799 and is expired at time 1800 (= 30 minutes). -/
theorem token_verify_roundtrip_witness :
    verify_token (create_access_token { sub := some "admin" } 0) 1799 =
      VerifyResult.ok "admin" ∧
    verify_token (create_access_token { sub := some "admin" } 0) 1800 =
      VerifyResult.httpError 401 "TOKEN_EXPIRED"
        "Token has expired. Please login again." :=
  ⟨(token_verify_roundtrip "admin" 0 1799 (by decide)).1 (by decide),
   (token_verify_roundtrip "admin" 0 1800 (by decide)).2 (by decide)⟩

/-- Claim C4: for every configured service and path, a method outside
GET/POST/PUT/DELETE fails with 405 METHOD_NOT_ALLOWED, and the result
does not depend on the transport, so no outbound call is issued. -/
theorem forward_bad_method_not_allowed (service base path method : String)
    (transport : Transport)
    (hsvc : SERVICES.lookup service = some base)
    (hm : ¬ (method = "GET" ∨ method = "POST" ∨ method = "PUT" ∨
      method = "DELETE")) :
    forward_request service path method transport =
      .httpError 405
        { error := "METHOD_NOT_ALLOWED"
          message := "HTTP method \x27" ++ method ++ "\x27 is not supported" } := by
  simp [forward_request, hsvc, hm]

/-- Witness for C4: PATCH on the course service is rejected with 405
regardless of what the backend would have answered. -/
theorem forward_bad_method_not_allowed_witness :
    forward_request "course" "/api/courses" "PATCH" (.ok 200 none) =
      .httpError 405
        { error := "METHOD_NOT_ALLOWED"
          message := "HTTP method \x27PATCH\x27 is not supported" } :=
  forward_bad_method_not_allowed "course" "http://localhost:8002"
    "/api/courses" "PATCH" (.ok 200 none) rfl (by decide)

/-- Claim C5: every backend response whose status is neither 404 nor
422 and below 500 is passed through with the backend status code and
body unchanged; an empty backend body yields a null-body response with
the same status. -/
theorem forward_passthrough_non_error (service base path method : String)
    (status_code : Nat) (body : Option String)
    (hsvc : SERVICES.lookup service = some base)
    (hm : method = "GET" ∨ method = "POST" ∨ method = "PUT" ∨ method = "DELETE")
    (h404 : status_code ≠ 404) (h422 : status_code ≠ 422)
    (hlt : status_code < 500) :
    forward_request service path method (.ok status_code body) =
      .response status_code body := by
  have h5 : ¬ (500 ≤ status_code) := by omega
  simp [forward_request, hsvc, hm, h404, h422, h5]

/-- Witness for C5: a 204 with empty body from the course service passes
through as a null-body 204. -/
theorem forward_passthrough_non_error_witness :
    forward_request "course" "/api/courses/1" "DELETE" (.ok 204 none) =
      .response 204 none :=
  forward_passthrough_non_error "course" "http://localhost:8002"
    "/api/courses/1" "DELETE" 204 none rfl (Or.inr (Or.inr (Or.inr rfl)))
    (by omega) (by omega) (by omega)

/-- Claim C6: transport-level failures of the outbound call are
classified exhaustively and disjointly - a connection failure yields
503 SERVICE_UNAVAILABLE carrying the attempted base address, a timeout
yields 504 GATEWAY_TIMEOUT, and any other transport fault yields 503
REQUEST_FAILED carrying the underlying fault description.  The three
equations cover every non-response Transport constructor. -/
theorem forward_transport_fault_classification
    (service base path method msg : String)
    (hsvc : SERVICES.lookup service = some base)
    (hm : method = "GET" ∨ method = "POST" ∨ method = "PUT" ∨ method = "DELETE") :
    forward_request service path method .connectError =
      .httpError 503
        { error := "SERVICE_UNAVAILABLE"
          message := "Cannot connect to " ++ service ++
            " service. Make sure it is running."
          service_url := some base } ∧
    forward_request service path method .timeout =
      .httpError 504
        { error := "GATEWAY_TIMEOUT"
          message := "The " ++ service ++
            " service took too long to respond" } ∧
    forward_request service path method (.requestError msg) =
      .httpError 503
        { error := "REQUEST_FAILED"
          message := "Failed to reach " ++ service ++ " service: " ++ msg } := by
  refine ⟨?_, ?_, ?_⟩ <;> simp [forward_request, hsvc, hm]

/-- Witness for C6: the three transport faults on the student service
map to SERVICE_UNAVAILABLE, GATEWAY_TIMEOUT and REQUEST_FAILED. -/
theorem forward_transport_fault_classification_witness :
    forward_request "student" "/api/students" "GET" .connectError =
      .httpError 503
        { error := "SERVICE_UNAVAILABLE"
          message := "Cannot connect to student service. Make sure it is running."
          service_url := some "http://localhost:8001" } ∧
    forward_request "student" "/api/students" "GET" .timeout =
      .httpError 504
        { error := "GATEWAY_TIMEOUT"
          message := "The student service took too long to respond" } ∧
    forward_request "student" "/api/students" "GET"
        (.requestError "protocol error") =
      .httpError 503
        { error := "REQUEST_FAILED"
          message := "Failed to reach student service: protocol error" } :=
  forward_transport_fault_classification "student" "http://localhost:8001"
    "/api/students" "GET" "protocol error" rfl (Or.inl rfl)

end Gateway
